import Mathlib

/-!
Verification of the ImAgInE repository: a web application that maps a free-text
prompt to the URL of a pre-existing 3D asset via keyword matching against a
static table, and places the loaded asset in augmented reality.

The file shallowly embeds the relevant source functions:
- the prompt resolution service and its HTTP handler
  (src/unnamed/part_004, the current version of src/app/api/generate/route.ts),
- the older handler variant (src/app/api/generate/route.ts and
  src/imagine-ar/server.js, which share the same logic and table),
- the AR scene operations: model loading with timeout and fallback retry,
  per-frame reticle update from hit-test results, and clone-on-select
  placement (src/components/ARScene.tsx, which contains two component
  versions; both are embedded where they differ).

External effects (the Gemini call, the network fetch of an asset, JSON
parsing of the AI reply) are modelled as explicit inputs, so every embedded
function is a pure, executable Lean function.
-/

namespace ImAgInE

/- ===================================================================
   Prompt Resolution Service - src/unnamed/part_004
   =================================================================== -/

/-- The URL stored under the key "default" in the fallback table
(`fallbackModels.default` in the source), the Box sample model. -/
def defaultModelUrl : String :=
  "https://raw.githubusercontent.com/KhronosGroup/glTF-Sample-Models/master/2.0/Box/glTF/Box.gltf"

/-- The static `fallbackModels` object of src/unnamed/part_004 (lines 8-18),
in declaration order. JS object string keys preserve insertion order. -/
def fallbackModels : List (String × String) :=
  [ ("cube", "https://raw.githubusercontent.com/KhronosGroup/glTF-Sample-Models/master/2.0/Box/glTF/Box.gltf")
  , ("fish", "https://raw.githubusercontent.com/KhronosGroup/glTF-Sample-Models/master/2.0/Duck/glTF/Duck.gltf")
  , ("dragon", "https://raw.githubusercontent.com/KhronosGroup/glTF-Sample-Models/master/2.0/Dragon/glTF/Dragon.gltf")
  , ("robot", "https://raw.githubusercontent.com/KhronosGroup/glTF-Sample-Models/master/2.0/BrainStem/glTF/BrainStem.gltf")
  , ("lantern", "https://raw.githubusercontent.com/KhronosGroup/glTF-Sample-Models/master/2.0/Lantern/glTF/Lantern.gltf")
  , ("animal", "https://raw.githubusercontent.com/KhronosGroup/glTF-Sample-Models/master/2.0/Fox/glTF/Fox.gltf")
  , ("human", "https://raw.githubusercontent.com/KhronosGroup/glTF-Sample-Models/master/2.0/Soldier/glTF/Soldier.gltf")
  , ("vehicle", "https://raw.githubusercontent.com/KhronosGroup/glTF-Sample-Models/master/2.0/CesiumMilkTruck/glTF/CesiumMilkTruck.gltf")
  , ("default", defaultModelUrl) ]

/-- The static `modelCategories` object of src/unnamed/part_004 (lines 21-30),
in declaration order; `Object.entries` enumerates it in this order. -/
def modelCategories : List (String × List String) :=
  [ ("fish", ["fish", "swimming", "aquatic", "marine", "sea", "ocean", "water"])
  , ("dragon", ["dragon", "mythical", "fantasy", "flying", "creature", "magical", "wings"])
  , ("robot", ["robot", "mechanical", "machine", "android", "tech", "futuristic", "artificial"])
  , ("lantern", ["lantern", "light", "lamp", "illumination", "glow", "lighting"])
  , ("animal", ["animal", "creature", "beast", "wildlife", "nature", "living"])
  , ("human", ["human", "person", "man", "woman", "figure", "character", "humanoid"])
  , ("vehicle", ["vehicle", "car", "truck", "transport", "automobile", "transportation"])
  , ("cube", ["cube", "box", "square", "geometric", "simple"]) ]

/-- JS `String.prototype.toLowerCase` on the ASCII strings of this
repository: lowercase every character. Written over the character list so
that it reduces structurally (the library `String.toLower` recurses on byte
positions and does not reduce definitionally). -/
def jsToLower (s : String) : String := ⟨s.data.map Char.toLower⟩

/-- Accumulator-passing core of `jsSplitOnSpace`. -/
def splitOnSpaceAux : List Char → List Char → List String
  | [], acc => [⟨acc.reverse⟩]
  | c :: cs, acc =>
    if c = ' ' then ⟨acc.reverse⟩ :: splitOnSpaceAux cs []
    else splitOnSpaceAux cs (c :: acc)

/-- JS `String.prototype.split(" ")`: split on every single space, keeping
empty segments (the JS behaviour for a string separator). -/
def jsSplitOnSpace (s : String) : List String := splitOnSpaceAux s.data []

/-- Score of one category (src/unnamed/part_004 lines 75-77):
`allKeywords.reduce((acc, keyword) => acc + (keywords.includes(keyword.toLowerCase()) ? 1 : 0), 0)`.
`Array.prototype.includes` is exact membership of the token in the list of
trigger keywords, not substring search. -/
def catScore (allKeywords : List String) (keys : List String) : Nat :=
  allKeywords.foldl (fun acc keyword => acc + (if keys.contains (jsToLower keyword) then 1 else 0)) 0

/-- Insertion step of a stable descending sort by score. An element moves
past exactly the strictly greater scores, so among equal scores the earlier
element of the input list stays first. -/
def insertScored (x : String × Nat) : List (String × Nat) → List (String × Nat)
  | [] => [x]
  | y :: ys => if y.2 ≤ x.2 then x :: y :: ys else y :: insertScored x ys

/-- Stable descending sort by score. This embeds
`categoryScores.sort((a, b) => b.score - a.score)` of src/unnamed/part_004
line 82: ECMAScript `Array.prototype.sort` is specified to be stable, and the
comparator orders by score descending; any stable descending-by-score sort
realises exactly that observable behaviour. -/
def sortByScoreDesc : List (String × Nat) → List (String × Nat)
  | [] => []
  | x :: xs => insertScored x (sortByScoreDesc xs)

/-- `categoryScores.sort((a, b) => b.score - a.score)[0]` (line 82). The
scored list always has the eight table categories, so it is never empty and
the fallback pair of `headD` is unreachable. -/
def bestMatch (l : List (String × Nat)) : String × Nat :=
  (sortByScoreDesc l).headD ("default", 0)

/-- Lines 74-79 of src/unnamed/part_004: every category of the table paired
with its score for the given keyword pool, in table order. -/
def categoryScores (allKeywords : List String) : List (String × Nat) :=
  modelCategories.map (fun c => (c.1, catScore allKeywords c.2))

/-- Lines 74-83 of src/unnamed/part_004: score every category, sort stably by
score descending, take the head, and keep it only when its score is positive,
else fall back to the category "default". -/
def resolveCategory (allKeywords : List String) : String :=
  let best := bestMatch (categoryScores allKeywords)
  if 0 < best.2 then best.1 else "default"

/-- Lines 65-69 of src/unnamed/part_004: the combined keyword pool
`[...prompt.toLowerCase().split(" "), ...(aiResponse.keywords || []), aiResponse.mainCategory].filter(Boolean)`.
`filter(Boolean)` drops empty strings. -/
def allKeywordsOf (p : String) (mainCategory : String) (aiKeywords : List String) : List String :=
  let tokens := jsSplitOnSpace (jsToLower p)
  (tokens ++ aiKeywords ++ [mainCategory]).filter (fun s => s != "")

/-- Outcome of the external Gemini text-completion call, an input of the
embedding. `ok text parsed` is a reply with body `text`; `parsed` carries
`(mainCategory, keywords)` when `JSON.parse` succeeds on the body and is
`none` when it throws. `fail` is a thrown error (missing key, timeout,
non-2xx, transport failure). -/
inductive AIOutcome
  | fail
  | ok (text : String) (parsed : Option (String × List String))
deriving DecidableEq

/-- Return value of `generateModelWithAI`. -/
structure GenResult where
  modelUrl : String
  modelDescription : String
  aiGenerated : Bool
  modelType : String
deriving DecidableEq, Repr

/-- The function `generateModelWithAI` of src/unnamed/part_004 (lines 33-102).
On a successful call the prompt tokens and the AI-extracted keywords are
pooled (with the text-analysis fallback when the reply is not JSON, line 61),
the pool is scored against the category table, and the winning category is
looked up in `fallbackModels` (line 88). Any thrown error is caught and the
hardcoded default record is returned (lines 93-101). -/
def generateModelWithAI (prompt : String) (ai : AIOutcome) : GenResult :=
  match ai with
  | .fail =>
    { modelUrl := defaultModelUrl
    , modelDescription := "Failed to generate AI description"
    , aiGenerated := false
    , modelType := "default" }
  | .ok text parsed =>
    let aiResponse : String × List String :=
      match parsed with
      | some (mc, ks) => (mc, ks)
      | none => ("", jsSplitOnSpace (jsToLower prompt))
    let allKeywords := allKeywordsOf prompt aiResponse.1 aiResponse.2
    let modelType := resolveCategory allKeywords
    { modelUrl := (fallbackModels.lookup modelType).getD defaultModelUrl
    , modelDescription := text
    , aiGenerated := true
    , modelType := modelType }

/-- Request body as seen by the handler: either `request.json()` threw, or it
produced an object whose `prompt` field is the given optional string. -/
inductive ReqBody
  | malformed
  | parsed (prompt : Option String)
deriving DecidableEq

/-- JS falsiness of the destructured `prompt` value: `undefined` and the
empty string are falsy. -/
def promptFalsy : Option String → Bool
  | none => true
  | some s => s == ""

/-- HTTP response of the route handler, with the JSON body fields it may
carry. -/
structure Response where
  status : Nat
  url : Option String
  description : Option String
  aiGenerated : Option Bool
  modelType : Option String
  error : Option String
deriving DecidableEq, Repr

/-- The `POST` handler of src/unnamed/part_004 (lines 104-140): 400 when the
prompt is falsy, otherwise run `generateModelWithAI`; a blank model URL would
be thrown and caught into the 500 branch, which also catches a malformed
body; the 500 body carries `fallbackModels.default` as `url`. -/
def POST (body : ReqBody) (ai : AIOutcome) : Response :=
  match body with
  | .malformed =>
    { status := 500, url := some defaultModelUrl, description := none
    , aiGenerated := none, modelType := none, error := some "Failed to generate model" }
  | .parsed prompt =>
    if promptFalsy prompt then
      { status := 400, url := none, description := none
      , aiGenerated := none, modelType := none, error := some "Prompt is required" }
    else
      let modelData := generateModelWithAI (prompt.getD "") ai
      if modelData.modelUrl == "" then
        { status := 500, url := some defaultModelUrl, description := none
        , aiGenerated := none, modelType := none, error := some "Failed to generate model" }
      else
        { status := 200, url := some modelData.modelUrl
        , description := some modelData.modelDescription
        , aiGenerated := some modelData.aiGenerated
        , modelType := some modelData.modelType, error := none }

/- ===================================================================
   Substring matching (JS String.prototype.includes), used by the older
   route variant, and by the claim-side resolver of claim C1
   =================================================================== -/

/-- Whether the first character list is an initial segment of the second. -/
def charsStartWith : List Char → List Char → Bool
  | [], _ => true
  | _ :: _, [] => false
  | c :: cs, d :: ds => c == d && charsStartWith cs ds

/-- Whether the first character list occurs contiguously anywhere in the
second. -/
def charsContain (needle : List Char) : List Char → Bool
  | [] => charsStartWith needle []
  | d :: ds => charsStartWith needle (d :: ds) || charsContain needle ds

/-- JS `hay.includes(needle)`: substring containment. -/
def strContains (hay needle : String) : Bool :=
  charsContain needle.data hay.data

/-- Claim-side scoring, following the words of claim C1: how many of the
trigger keywords of a category appear as a substring of the lowercased
prompt (so a keyword inside a longer word counts). This definition follows
the claim, not the source; the source scoring is `catScore`. -/
def claimSubstringScore (p : String) (keys : List String) : Nat :=
  keys.countP (fun k => strContains (jsToLower p) k)

/-- Claim-side resolver, following the words of claim C1: the category with
the highest substring count wins. This definition follows the claim, not the
source. -/
def resolveBySubstringClaim (p : String) : String :=
  (bestMatch (modelCategories.map (fun c => (c.1, claimSubstringScore p c.2)))).1

/-- Claim-side asset URL for claim C1: the URL of the substring-resolved
category. -/
def claimC1Url (p : String) : String :=
  (fallbackModels.lookup (resolveBySubstringClaim p)).getD defaultModelUrl

/- ===================================================================
   Older handler variant - src/app/api/generate/route.ts and
   src/imagine-ar/server.js (identical logic and table)
   =================================================================== -/

namespace OldRoute

/-- The value of `fallbackModels.cube` in the older variant, the Box sample
model (same URL as the "default" entry of the newer table). -/
def cubeModelUrl : String :=
  "https://raw.githubusercontent.com/KhronosGroup/glTF-Sample-Models/master/2.0/Box/glTF/Box.gltf"

/-- The static `fallbackModels` object of src/app/api/generate/route.ts
(lines 8-13) and src/imagine-ar/server.js (lines 19-24). -/
def fallbackModels : List (String × String) :=
  [ ("cube", cubeModelUrl)
  , ("duck", "https://raw.githubusercontent.com/KhronosGroup/glTF-Sample-Models/master/2.0/Duck/glTF/Duck.gltf")
  , ("robot", "https://raw.githubusercontent.com/KhronosGroup/glTF-Sample-Models/master/2.0/BrainStem/glTF/BrainStem.gltf")
  , ("lantern", "https://raw.githubusercontent.com/KhronosGroup/glTF-Sample-Models/master/2.0/Lantern/glTF/Lantern.gltf") ]

/-- `generateModelWithAI` of src/app/api/generate/route.ts (lines 16-62):
an if-else chain of substring tests (`keywords.includes(...)` on the
lowercased prompt string) choosing the first matching category; on a thrown
error, the cube fallback record. -/
def generateModelWithAI (prompt : String) (ai : AIOutcome) : GenResult :=
  match ai with
  | .fail =>
    { modelUrl := cubeModelUrl
    , modelDescription := "Failed to generate AI description"
    , aiGenerated := false
    , modelType := "fallback" }
  | .ok text _ =>
    let keywords := jsToLower prompt
    let modelType :=
      if strContains keywords "cube" || strContains keywords "box" || strContains keywords "square" then "cube"
      else if strContains keywords "duck" || strContains keywords "bird" || strContains keywords "animal" then "duck"
      else if strContains keywords "robot" || strContains keywords "machine" || strContains keywords "mechanical" then "robot"
      else if strContains keywords "lantern" || strContains keywords "light" || strContains keywords "lamp" then "lantern"
      else "generic"
    { modelUrl := (fallbackModels.lookup modelType).getD cubeModelUrl
    , modelDescription := text
    , aiGenerated := true
    , modelType := modelType }

/-- The `POST` handler of src/app/api/generate/route.ts (lines 64-94) and
`app.post("/generate")` of src/imagine-ar/server.js (lines 82-106). -/
def POST (body : ReqBody) (ai : AIOutcome) : Response :=
  match body with
  | .malformed =>
    { status := 500, url := some cubeModelUrl, description := none
    , aiGenerated := none, modelType := none, error := some "Failed to generate model" }
  | .parsed prompt =>
    if promptFalsy prompt then
      { status := 400, url := none, description := none
      , aiGenerated := none, modelType := none, error := some "Prompt is required" }
    else
      let modelData := generateModelWithAI (prompt.getD "") ai
      { status := 200, url := some modelData.modelUrl
      , description := some modelData.modelDescription
      , aiGenerated := some modelData.aiGenerated
      , modelType := some modelData.modelType, error := none }

end OldRoute

/- ===================================================================
   AR scene - src/components/ARScene.tsx
   The file concatenates two versions of the component; where they differ
   both are embedded (suffix V1 for the first, V2 for the second).
   =================================================================== -/

namespace ARScene

/-- Abstraction of a three.js rigid-transform `Matrix4`: `rot` stands for
the orientation block, `pos` for the translation column (array elements 12,
13 and 14). `Matrix4.fromArray` copies both components. -/
structure Mat4 where
  rot : Int × Int × Int
  pos : Int × Int × Int
deriving DecidableEq, Repr

/-- Abstraction of a three.js `Object3D`: its own transform components and
visibility. `Object3D.clone()` copies all of these into a fresh object. -/
structure Obj where
  position : Int × Int × Int
  rotation : Int × Int × Int
  scale : Int × Int × Int
  visible : Bool
deriving DecidableEq, Repr

/-- `model.position.setFromMatrixPosition(m)`: copies only the translation
column of `m` into the position; orientation and scale are untouched. -/
def setFromMatrixPosition (o : Obj) (m : Mat4) : Obj :=
  { o with position := m.pos }

/-- The reticle: a visibility flag and a pose matrix
(`reticle.matrixAutoUpdate = false`, the matrix is written directly). -/
structure Reticle where
  visible : Bool
  matrix : Mat4
deriving DecidableEq, Repr

/-- Hit-test part of the `render` callback, first component version
(src/components/ARScene.tsx lines 359-370): the frame supplies the
`getHitTestResults` list, each entry being the `getPose` outcome of one
result (`none` when `getPose` returns null). When a first result with a pose
exists, the reticle is made visible and its matrix overwritten; in every
other case the reticle is left untouched - this version has no branch that
hides it. -/
def renderReticleV1 (ret : Reticle) (hitTestResults : List (Option Mat4)) : Reticle :=
  match hitTestResults with
  | [] => ret
  | pose :: _ =>
    match pose with
    | some m => { visible := true, matrix := m }
    | none => ret

/-- Hit-test part of the `render` callback, second component version
(src/components/ARScene.tsx lines 906-923): same as the first version, plus
an else branch that sets the reticle invisible when the result list is
empty. -/
def renderReticleV2 (ret : Reticle) (hitTestResults : List (Option Mat4)) : Reticle :=
  match hitTestResults with
  | [] => { ret with visible := false }
  | pose :: _ =>
    match pose with
    | some m => { visible := true, matrix := m }
    | none => ret

/-- Scene state for placement. Scene objects live in a heap addressed by
allocation ids (`nextId` is the next fresh id), mirroring the reference
semantics of three.js objects: `template` is `modelRef.current`, `placed`
is the `placedObjects` list, in placement order. -/
structure ARState where
  heap : Nat → Obj
  nextId : Nat
  template : Option Nat
  reticle : Reticle
  placed : List Nat

/-- Heap update at one id. -/
def writeObj (h : Nat → Obj) (id : Nat) (o : Obj) : Nat → Obj :=
  fun j => if j = id then o else h j

/-- The `onSelect` handler (src/components/ARScene.tsx lines 293-330 and
847-866): when the reticle is visible and a template model is loaded, clone
the template (a fresh object), set the position of the clone from the
reticle matrix translation, make it visible, add it to the scene and append
it to the placed list; otherwise do nothing. -/
def onSelect (s : ARState) : ARState :=
  if s.reticle.visible then
    match s.template with
    | some t =>
      let model := s.heap t
      let model := setFromMatrixPosition model s.reticle.matrix
      let model := { model with visible := true }
      { s with heap := writeObj s.heap s.nextId model
             , nextId := s.nextId + 1
             , placed := s.placed ++ [s.nextId] }
    | none => s
  else s

/-- Mutation of the position of one scene object after placement (what a
later `object.position.set(...)` would do). -/
def setPose (s : ARState) (id : Nat) (p : Int × Int × Int) : ARState :=
  { s with heap := writeObj s.heap id { s.heap id with position := p } }

/-- Outcome of one `GLTFLoader.load` attempt for a URL: the success callback
fires, the error callback fires, or the 30000 ms timeout expires first. -/
inductive LoadOutcome
  | success
  | failure
  | timeout
deriving DecidableEq, Repr

/-- Loading-related session state: the installed template asset (URL of the
model held by `modelRef`), the `modelLoaded` flag, the progress percentage,
the user-visible error string, and the list of load attempts in order (a
ghost trace recording each `loadModel` invocation). -/
structure LoadSt where
  template : Option String
  loaded : Bool
  progress : Nat
  error : Option String
  attempts : List String
deriving DecidableEq, Repr

/-- The `loadModel` function, second component version
(src/components/ARScene.tsx lines 727-836; the first version at lines
187-282 is identical except that it lacks the invalid-URL branch and writes
the retry target as `fallbackModels.cube`, the same URL string as
`fallbackModels.default`). On entry it discards the previous template and
resets the flags; an invalid URL retries with the default URL; on success
the template is installed; on error or timeout the error string is set and,
when the URL is not already the default one, the load is retried once with
the default URL. -/
def loadModel (w : String → LoadOutcome) (url : String) (s : LoadSt) : LoadSt :=
  let s0 : LoadSt :=
    { template := none, loaded := false, progress := 0, error := none
    , attempts := s.attempts ++ [url] }
  if hbad : url = "" ∨ url = "undefined" then
    loadModel w defaultModelUrl { s0 with error := some "Invalid model URL. Please try again." }
  else
    match w url with
    | .success => { s0 with template := some url, loaded := true, progress := 100 }
    | .timeout =>
      let s1 := { s0 with error := some "Model loading timed out. Please try again." }
      if hdef : url = defaultModelUrl then s1 else loadModel w defaultModelUrl s1
    | .failure =>
      let s1 := { s0 with error := some "Failed to load 3D model" }
      if hdef : url = defaultModelUrl then s1 else loadModel w defaultModelUrl s1
termination_by (if url = defaultModelUrl then 0 else 1)
decreasing_by
  · have hne : url ≠ defaultModelUrl := by
      rcases hbad with h | h <;> subst h <;> decide
    simp [hne]
  · simp [hdef]
  · simp [hdef]

end ARScene

/- ===================================================================
   Interleaving model of concurrent loadModel calls, for the staleness
   invariant: each loadModel invocation registers callbacks, and a success
   callback may fire at any later point. The code has no generation token,
   so a callback never checks whether its load was superseded.
   =================================================================== -/

namespace LoadRace

/-- State of the template slot across overlapping loads: `started` lists the
`loadModel` invocations so far (the attempt id is the index), `template` is
the installed model (`modelRef.current`), tagged by the URL it was loaded
from. -/
structure LoaderState where
  started : List String
  template : Option String
deriving DecidableEq, Repr

/-- Events of the interleaving: a new `loadModel(url)` call starts (it
removes the current model from the scene and registers fresh callbacks), or
the success callback of the k-th started load fires. -/
inductive LoadEvent
  | start (url : String)
  | succeed (k : Nat)
deriving DecidableEq, Repr

/-- One event. `start` embeds the entry of `loadModel` (clear the previous
model, register the attempt). `succeed k` embeds the success callback of
attempt k (src/components/ARScene.tsx lines 764-809): it runs
`scene.add(model); modelRef.current = model` unconditionally - there is no
generation check that would make a superseded callback a no-op. -/
def stepLoad (s : LoaderState) (e : LoadEvent) : LoaderState :=
  match e with
  | .start url => { started := s.started ++ [url], template := none }
  | .succeed k =>
    match s.started.get? k with
    | some url => { s with template := some url }
    | none => s

/-- Run a sequence of events from a state. -/
def runLoad (s : LoaderState) (events : List LoadEvent) : LoaderState :=
  events.foldl stepLoad s

end LoadRace

/- ===================================================================
   Characterisation of the head of the stable descending sort: it is the
   first element of the input attaining the maximal score.
   =================================================================== -/

/-- The first element of the list attaining the maximal score (later
elements win only with a strictly greater score). -/
def firstMax : List (String × Nat) → Option (String × Nat)
  | [] => none
  | x :: xs =>
    match firstMax xs with
    | none => some x
    | some y => some (if x.2 < y.2 then y else x)

theorem insertScored_length (x : String × Nat) (l : List (String × Nat)) :
    (insertScored x l).length = l.length + 1 := by
  induction l with
  | nil => rfl
  | cons y ys ih =>
    simp only [insertScored]
    split
    · simp
    · simp [ih]

theorem sortByScoreDesc_length (l : List (String × Nat)) :
    (sortByScoreDesc l).length = l.length := by
  induction l with
  | nil => rfl
  | cons x xs ih => simp [sortByScoreDesc, insertScored_length, ih]

theorem firstMax_eq_none_iff (l : List (String × Nat)) :
    firstMax l = none ↔ l = [] := by
  cases l with
  | nil => simp [firstMax]
  | cons x xs =>
    simp only [firstMax]
    cases firstMax xs <;> simp

theorem head_sortByScoreDesc (l : List (String × Nat)) :
    (sortByScoreDesc l).head? = firstMax l := by
  induction l with
  | nil => rfl
  | cons x xs ih =>
    show (insertScored x (sortByScoreDesc xs)).head? = firstMax (x :: xs)
    cases h : sortByScoreDesc xs with
    | nil =>
      have hxs : xs = [] := by
        have hlen := congrArg List.length h
        rw [sortByScoreDesc_length] at hlen
        exact List.length_eq_zero.mp hlen
      subst hxs
      rfl
    | cons y ys =>
      have hy : firstMax xs = some y := by
        rw [← ih, h]
        rfl
      simp only [firstMax, hy]
      by_cases hc : y.2 ≤ x.2
      · have hnlt : ¬ x.2 < y.2 := Nat.not_lt.mpr hc
        simp [insertScored, hc, hnlt]
      · have hlt : x.2 < y.2 := Nat.lt_of_not_le hc
        simp [insertScored, hc, hlt]

theorem firstMax_mem {l : List (String × Nat)} {y : String × Nat}
    (h : firstMax l = some y) : y ∈ l := by
  induction l with
  | nil => simp [firstMax] at h
  | cons x xs ih =>
    simp only [firstMax] at h
    cases hxs : firstMax xs with
    | none =>
      rw [hxs] at h
      simp only [Option.some.injEq] at h
      subst h
      exact List.mem_cons_self x xs
    | some z =>
      rw [hxs] at h
      simp only [Option.some.injEq] at h
      by_cases hc : x.2 < z.2
      · rw [if_pos hc] at h
        subst h
        exact List.mem_cons_of_mem x (ih hxs)
      · rw [if_neg hc] at h
        subst h
        exact List.mem_cons_self x xs

theorem firstMax_eq_get (l : List (String × Nat)) (i : Nat) (hi : i < l.length)
    (hmax : ∀ j, (hj : j < l.length) → j ≠ i →
      (l.get ⟨j, hj⟩).2 < (l.get ⟨i, hi⟩).2 ∨
      ((l.get ⟨j, hj⟩).2 = (l.get ⟨i, hi⟩).2 ∧ i < j)) :
    firstMax l = some (l.get ⟨i, hi⟩) := by
  induction l generalizing i with
  | nil => simp at hi
  | cons x xs ih =>
    cases i with
    | zero =>
      show firstMax (x :: xs) = some x
      simp only [firstMax]
      cases hxs : firstMax xs with
      | none => rfl
      | some y =>
        obtain ⟨⟨j, hj⟩, hjy⟩ := List.mem_iff_get.mp (firstMax_mem hxs)
        have hj1 : j + 1 < (x :: xs).length := by
          simp only [List.length_cons]
          omega
        have hcmp := hmax (j + 1) hj1 (by omega)
        have hgj : (x :: xs).get ⟨j + 1, hj1⟩ = y := by
          simpa using hjy
        have hg0 : (x :: xs).get ⟨0, hi⟩ = x := rfl
        rw [hgj, hg0] at hcmp
        have hle : y.2 ≤ x.2 := by omega
        show some (if x.2 < y.2 then y else x) = some x
        rw [if_neg (Nat.not_lt.mpr hle)]
    | succ k =>
      have hk : k < xs.length := by
        simp only [List.length_cons] at hi
        omega
      have h0lt : 0 < (x :: xs).length := by simp
      have hx := hmax 0 h0lt (by omega)
      have hg0 : (x :: xs).get ⟨0, h0lt⟩ = x := rfl
      have hgk : (x :: xs).get ⟨k + 1, hi⟩ = xs.get ⟨k, hk⟩ := by simp
      rw [hg0, hgk] at hx
      have hxlt : x.2 < (xs.get ⟨k, hk⟩).2 := by omega
      have hrec : firstMax xs = some (xs.get ⟨k, hk⟩) := by
        apply ih k hk
        intro j hj hjk
        have hj1 : j + 1 < (x :: xs).length := by
          simp only [List.length_cons]
          omega
        have hcmp := hmax (j + 1) hj1 (by omega)
        have hgj : (x :: xs).get ⟨j + 1, hj1⟩ = xs.get ⟨j, hj⟩ := by simp
        rw [hgj, hgk] at hcmp
        rcases hcmp with h | ⟨h, h2⟩
        · exact Or.inl h
        · exact Or.inr ⟨h, by omega⟩
      rw [hgk]
      simp only [firstMax, hrec]
      rw [if_pos hxlt]

theorem bestMatch_eq {l : List (String × Nat)} {z : String × Nat}
    (h : firstMax l = some z) : bestMatch l = z := by
  unfold bestMatch
  cases hs : sortByScoreDesc l with
  | nil =>
    have := head_sortByScoreDesc l
    rw [hs, h] at this
    simp at this
  | cons a as =>
    have := head_sortByScoreDesc l
    rw [hs, h] at this
    simp only [List.head?, Option.some.injEq] at this
    simp [this]

/-- Selection lemma for the source resolver: if the i-th table category has
a positive score and every other category has a strictly smaller score, or
an equal score with a later declaration position, then the i-th category is
selected. -/
theorem resolveCategory_eq_of_best (ks : List String) (i : Nat)
    (hi : i < (categoryScores ks).length)
    (hpos : 0 < ((categoryScores ks).get ⟨i, hi⟩).2)
    (hmax : ∀ j, (hj : j < (categoryScores ks).length) → j ≠ i →
      ((categoryScores ks).get ⟨j, hj⟩).2 < ((categoryScores ks).get ⟨i, hi⟩).2 ∨
      (((categoryScores ks).get ⟨j, hj⟩).2 = ((categoryScores ks).get ⟨i, hi⟩).2 ∧
        i < j)) :
    resolveCategory ks = ((categoryScores ks).get ⟨i, hi⟩).1 := by
  unfold resolveCategory
  rw [bestMatch_eq (firstMax_eq_get _ i hi hmax)]
  rw [if_pos hpos]

/-- Zero-score lemma for the source resolver: when every category scores
zero, the resolver yields the category "default". -/
theorem resolveCategory_eq_default (ks : List String)
    (h0 : ∀ j, (hj : j < (categoryScores ks).length) →
      ((categoryScores ks).get ⟨j, hj⟩).2 = 0) :
    resolveCategory ks = "default" := by
  unfold resolveCategory
  cases hfm : firstMax (categoryScores ks) with
  | none =>
    rw [firstMax_eq_none_iff] at hfm
    simp [categoryScores, modelCategories] at hfm
  | some z =>
    have hbm := bestMatch_eq hfm
    obtain ⟨⟨j, hj⟩, hjz⟩ := List.mem_iff_get.mp (firstMax_mem hfm)
    have hz2 : z.2 = 0 := by
      rw [← hjz]
      exact h0 j hj
    simp only [hbm, hz2]
    rfl

/-- The j-th entry of `categoryScores`: the name of the j-th table category
paired with its keyword-hit count. -/
theorem categoryScores_get (ks : List String) (j : Nat)
    (hj : j < (categoryScores ks).length) :
    (categoryScores ks).get ⟨j, hj⟩
      = ((modelCategories.get ⟨j, by simpa [categoryScores] using hj⟩).1,
         catScore ks (modelCategories.get ⟨j, by simpa [categoryScores] using hj⟩).2) := by
  simp [categoryScores, List.get_eq_getElem, List.getElem_map]

/- ===================================================================
   Helper lemmas about table lookups
   =================================================================== -/

theorem lookup_mem_values {l : List (String × String)} {key v : String}
    (h : l.lookup key = some v) : v ∈ l.map Prod.snd := by
  induction l with
  | nil => simp [List.lookup] at h
  | cons x xs ih =>
    rcases x with ⟨k, w⟩
    cases hk : key == k <;> simp only [List.lookup, hk] at h
    · exact List.mem_cons_of_mem _ (ih h)
    · simp only [Option.some.injEq] at h
      subst h
      exact List.mem_cons_self _ _

theorem getD_lookup_mem (l : List (String × String)) (key d : String)
    (hd : d ∈ l.map Prod.snd) : (l.lookup key).getD d ∈ l.map Prod.snd := by
  cases hl : l.lookup key with
  | none => simpa using hd
  | some v => simpa using lookup_mem_values hl

set_option maxHeartbeats 1600000 in
/-- Every URL value of the newer fallback table is a nonempty string. -/
theorem mem_fallback_ne_empty {u : String} (h : u ∈ fallbackModels.map Prod.snd) :
    u ≠ "" := by
  have hall : ∀ x ∈ fallbackModels.map Prod.snd, x ≠ "" := by decide
  exact hall u h

/-- The default URL is a value of the fallback table (its last entry). -/
theorem defaultModelUrl_mem : defaultModelUrl ∈ fallbackModels.map Prod.snd := by
  simp only [fallbackModels, List.map_cons, List.map_nil]
  exact .tail _ (.tail _ (.tail _ (.tail _ (.tail _ (.tail _ (.tail _ (.tail _ (.head _))))))))

/-- The asset URL returned by the resolution service is always one of the
URL values of the static fallback table. -/
theorem generateModelWithAI_url_mem (p : String) (ai : AIOutcome) :
    (generateModelWithAI p ai).modelUrl ∈ fallbackModels.map Prod.snd := by
  cases ai with
  | fail =>
    simp only [generateModelWithAI]
    exact defaultModelUrl_mem
  | ok text parsed =>
    simp only [generateModelWithAI]
    exact getD_lookup_mem _ _ _ defaultModelUrl_mem

/-- The cube URL is a value of the older fallback table (its first entry). -/
theorem cubeModelUrl_mem : OldRoute.cubeModelUrl ∈ OldRoute.fallbackModels.map Prod.snd := by
  simp only [OldRoute.fallbackModels, List.map_cons, List.map_nil]
  exact .head _

/-- The asset URL returned by the older variant is always one of the URL
values of its static fallback table. -/
theorem oldRoute_url_mem (p : String) (ai : AIOutcome) :
    (OldRoute.generateModelWithAI p ai).modelUrl ∈ OldRoute.fallbackModels.map Prod.snd := by
  cases ai with
  | fail =>
    simp only [OldRoute.generateModelWithAI]
    exact cubeModelUrl_mem
  | ok text parsed =>
    simp only [OldRoute.generateModelWithAI]
    exact getD_lookup_mem _ _ _ cubeModelUrl_mem

/- ===================================================================
   Claims C1, C3, C7, C8, C10 - the prompt resolution service
   =================================================================== -/

set_option maxHeartbeats 1600000 in
/-- Claim C1, counterexample. The claim states that keywords are matched as
substrings of the lowercased prompt, so that "dragon" inside "dragonfly"
counts as a hit, and that the category with the highest such count wins.
`claimC1Url` computes exactly that claimed resolution: for the prompt
"dragonfly" it yields the dragon asset URL (the keyword "dragon" is a
substring and no other category has a substring hit). The source function,
however, matches whole tokens by equality, scores every category zero on
"dragonfly", and returns the default Box URL - refuting the claim at this
input. -/
theorem claim_C1_counterexample :
    claimC1Url "dragonfly"
      = "https://raw.githubusercontent.com/KhronosGroup/glTF-Sample-Models/master/2.0/Dragon/glTF/Dragon.gltf"
    ∧ (generateModelWithAI "dragonfly" (.ok "a winged insect" none)).modelUrl
      = "https://raw.githubusercontent.com/KhronosGroup/glTF-Sample-Models/master/2.0/Box/glTF/Box.gltf"
    ∧ claimC1Url "dragonfly"
      ≠ (generateModelWithAI "dragonfly" (.ok "a winged insect" none)).modelUrl := by
  refine ⟨by decide, by decide, by decide⟩

set_option maxHeartbeats 1600000 in
/-- Claim C1 as amended: the resolution counts, for each category of the
static table, how many entries of the analyzed keyword pool (the
whitespace-split lowercased prompt tokens together with the AI-extracted
keywords) are members of that category by exact string equality - a keyword
inside a longer word does not count - and returns the asset URL of the
category with the highest count (earliest declared on ties). The first
conjunct: whenever the i-th category has a positive count and beats every
other category (strictly, or equally but declared earlier), its table URL is
returned. The second conjunct: for the prompt "dragonfly" the substring hit
claimed by C1 does not materialise and the default URL is returned. -/
theorem claim_C1_theorem :
    (∀ (p text mc : String) (aks : List String) (i : Nat)
      (hi : i < (categoryScores (allKeywordsOf p mc aks)).length),
      0 < ((categoryScores (allKeywordsOf p mc aks)).get ⟨i, hi⟩).2 →
      (∀ j, (hj : j < (categoryScores (allKeywordsOf p mc aks)).length) → j ≠ i →
        ((categoryScores (allKeywordsOf p mc aks)).get ⟨j, hj⟩).2
            < ((categoryScores (allKeywordsOf p mc aks)).get ⟨i, hi⟩).2 ∨
        (((categoryScores (allKeywordsOf p mc aks)).get ⟨j, hj⟩).2
            = ((categoryScores (allKeywordsOf p mc aks)).get ⟨i, hi⟩).2 ∧ i < j)) →
      (generateModelWithAI p (.ok text (some (mc, aks)))).modelUrl
        = (fallbackModels.lookup
            ((categoryScores (allKeywordsOf p mc aks)).get ⟨i, hi⟩).1).getD defaultModelUrl)
    ∧ (∀ text : String,
        (generateModelWithAI "dragonfly" (.ok text none)).modelUrl = defaultModelUrl) := by
  constructor
  · intro p text mc aks i hi hpos hmax
    simp only [generateModelWithAI]
    rw [resolveCategory_eq_of_best _ i hi hpos hmax]
  · intro text
    simp only [generateModelWithAI]
    rw [show resolveCategory (allKeywordsOf "dragonfly" ""
          (jsSplitOnSpace (jsToLower "dragonfly"))) = "default" from by decide]
    rfl

set_option maxHeartbeats 1600000 in
/-- Claim C1, witness: for the prompt "a red dragon breathing fire" with an
AI reply carrying no extra keywords, the dragon category (table position 1)
uniquely attains the maximal hit count, and the returned URL is its table
entry, the Dragon model URL. -/
theorem claim_C1_witness :
    (generateModelWithAI "a red dragon breathing fire" (.ok "desc" (some ("", [])))).modelUrl
      = "https://raw.githubusercontent.com/KhronosGroup/glTF-Sample-Models/master/2.0/Dragon/glTF/Dragon.gltf" := by
  have h := claim_C1_theorem.1 "a red dragon breathing fire" "desc" "" [] 1
    (by decide) (by decide) (by decide)
  rw [h]
  decide

set_option maxHeartbeats 1600000 in
/-- Claim C3, counterexample. The claim states that for the prompt
"A red dragon breathing fire" the returned asset URL is the dragon model URL
from the table even when the text-completion call failed. In the source the
keyword resolution lives inside the try block, so a failed call skips it
entirely: the catch branch returns the default Box URL, not the dragon
URL. -/
theorem claim_C3_counterexample :
    (generateModelWithAI "A red dragon breathing fire" .fail).modelUrl = defaultModelUrl
    ∧ (generateModelWithAI "A red dragon breathing fire" .fail).aiGenerated = false
    ∧ (generateModelWithAI "A red dragon breathing fire" .fail).modelDescription
        = "Failed to generate AI description"
    ∧ defaultModelUrl ≠ (fallbackModels.lookup "dragon").getD defaultModelUrl := by
  refine ⟨rfl, rfl, rfl, by decide⟩

set_option maxHeartbeats 1600000 in
/-- Claim C3 as amended: when the external text-completion call fails, the
service substitutes the fixed placeholder description and flags the result
as not AI-generated, but keyword-based asset resolution is skipped as well:
the default asset URL is returned regardless of the prompt. Keyword
resolution runs only on a successful call; for the prompt
"A red dragon breathing fire" a successful call yields the dragon model URL,
a failed call yields the default Box URL. -/
theorem claim_C3_theorem :
    (∀ p : String, generateModelWithAI p .fail =
      { modelUrl := defaultModelUrl
      , modelDescription := "Failed to generate AI description"
      , aiGenerated := false
      , modelType := "default" })
    ∧ (∀ text : String,
        (generateModelWithAI "A red dragon breathing fire" (.ok text none)).modelUrl
          = (fallbackModels.lookup "dragon").getD defaultModelUrl
        ∧ (generateModelWithAI "A red dragon breathing fire" (.ok text none)).aiGenerated
          = true) := by
  constructor
  · intro p
    simp only [generateModelWithAI]
  · intro text
    constructor
    · simp only [generateModelWithAI]
      rw [show resolveCategory (allKeywordsOf "A red dragon breathing fire" ""
            (jsSplitOnSpace (jsToLower "A red dragon breathing fire"))) = "dragon" from by decide]
    · simp only [generateModelWithAI]

set_option maxHeartbeats 1600000 in
/-- Claim C7, counterexample. The claim states that a whitespace-only prompt
is rejected with a validation error before any network call. The handler
only checks JS falsiness (`if (!prompt)`), and the string " " is truthy: the
request is answered with status 200, not a validation error, and the
response depends on the outcome of the AI call, so the call was issued. -/
theorem claim_C7_counterexample :
    (POST (.parsed (some " ")) .fail).status = 200
    ∧ POST (.parsed (some " ")) .fail ≠ POST (.parsed (some " ")) (.ok "d" none) := by
  exact ⟨rfl, by decide⟩

set_option maxHeartbeats 1600000 in
/-- Claim C7 as amended: a missing prompt and an empty-string prompt are
rejected with a 400 validation error whose response does not depend on the
AI outcome (no network call is issued); a whitespace-only prompt is NOT
rejected - it reaches the AI call and is answered with status 200. -/
theorem claim_C7_theorem :
    (∀ ai : AIOutcome,
      POST (.parsed none) ai
        = { status := 400, url := none, description := none
          , aiGenerated := none, modelType := none, error := some "Prompt is required" }
      ∧ POST (.parsed (some "")) ai
        = { status := 400, url := none, description := none
          , aiGenerated := none, modelType := none, error := some "Prompt is required" })
    ∧ (∀ ai : AIOutcome, (POST (.parsed (some " ")) ai).status = 200) := by
  constructor
  · intro ai
    exact ⟨rfl, rfl⟩
  · intro ai
    have hne : (generateModelWithAI " " ai).modelUrl ≠ "" :=
      mem_fallback_ne_empty (generateModelWithAI_url_mem " " ai)
    simp only [POST, promptFalsy]
    rw [if_neg (by decide)]
    rw [if_neg (by simpa using hne)]

/-- Claim C8: among the scored categories, a strictly higher hit count wins;
an exact tie is resolved to the category declared first in the table (the
stable sort keeps table order among equal scores); and when every category
scores zero the resolver yields the category "default", whose table URL is
the default Box URL. The entry `(categoryScores ks).get ⟨j, hj⟩` is the pair
of the j-th table category name and its hit count for the keyword pool
`ks` (see `categoryScores_get`). -/
theorem claim_C8_theorem :
    (∀ (ks : List String) (i : Nat) (hi : i < (categoryScores ks).length),
      0 < ((categoryScores ks).get ⟨i, hi⟩).2 →
      (∀ j, (hj : j < (categoryScores ks).length) → j ≠ i →
        ((categoryScores ks).get ⟨j, hj⟩).2 < ((categoryScores ks).get ⟨i, hi⟩).2 ∨
        (((categoryScores ks).get ⟨j, hj⟩).2 = ((categoryScores ks).get ⟨i, hi⟩).2 ∧ i < j)) →
      resolveCategory ks = ((categoryScores ks).get ⟨i, hi⟩).1)
    ∧ (∀ ks : List String,
        (∀ j, (hj : j < (categoryScores ks).length) →
          ((categoryScores ks).get ⟨j, hj⟩).2 = 0) →
        resolveCategory ks = "default"
        ∧ (fallbackModels.lookup (resolveCategory ks)).getD defaultModelUrl
            = defaultModelUrl) := by
  constructor
  · intro ks i hi hpos hmax
    exact resolveCategory_eq_of_best ks i hi hpos hmax
  · intro ks h0
    have hd := resolveCategory_eq_default ks h0
    refine ⟨hd, ?_⟩
    rw [hd]
    rfl

set_option maxHeartbeats 1600000 in
/-- Claim C8, witness: "robot lantern" gives robot and lantern one hit each;
robot is declared earlier (position 2, before lantern at position 3) and is
selected. A pool with no keyword hits resolves to "default" and the default
URL. -/
theorem claim_C8_witness :
    resolveCategory ["robot", "lantern"] = "robot"
    ∧ resolveCategory ["qqq"] = "default" := by
  constructor
  · exact claim_C8_theorem.1 ["robot", "lantern"] 2 (by decide) (by decide) (by decide)
  · exact (claim_C8_theorem.2 ["qqq"] (by decide)).1

set_option maxHeartbeats 1600000 in
/-- Claim C10: for every request body with a non-empty prompt, both the
current handler and the older variant answer with status 200 and a `url`
field whose value is one of the URL values of their static fallback tables;
in particular no success response lacks a `url`. -/
theorem claim_C10_theorem :
    ∀ (p : String) (ai : AIOutcome), p ≠ "" →
      ((POST (.parsed (some p)) ai).status = 200
        ∧ ∃ u, (POST (.parsed (some p)) ai).url = some u
              ∧ u ∈ fallbackModels.map Prod.snd)
      ∧ ((OldRoute.POST (.parsed (some p)) ai).status = 200
        ∧ ∃ u, (OldRoute.POST (.parsed (some p)) ai).url = some u
              ∧ u ∈ OldRoute.fallbackModels.map Prod.snd) := by
  intro p ai hp
  have hfalsy : promptFalsy (some p) = false := by
    simp [promptFalsy, hp]
  constructor
  · have hne : (generateModelWithAI p ai).modelUrl ≠ "" :=
      mem_fallback_ne_empty (generateModelWithAI_url_mem p ai)
    simp only [POST, hfalsy]
    rw [if_neg (by simp)]
    rw [if_neg (by simpa using hne)]
    exact ⟨rfl, ⟨(generateModelWithAI p ai).modelUrl, rfl,
      generateModelWithAI_url_mem p ai⟩⟩
  · simp only [OldRoute.POST, hfalsy]
    rw [if_neg (by simp)]
    exact ⟨rfl, ⟨(OldRoute.generateModelWithAI p ai).modelUrl, rfl,
      oldRoute_url_mem p ai⟩⟩

set_option maxHeartbeats 1600000 in
/-- Claim C10, witness at the prompt "hello" with a failed AI call. -/
theorem claim_C10_witness :
    ("hello" : String) ≠ ""
    ∧ (((POST (.parsed (some "hello")) .fail).status = 200
        ∧ ∃ u, (POST (.parsed (some "hello")) .fail).url = some u
              ∧ u ∈ fallbackModels.map Prod.snd)
      ∧ ((OldRoute.POST (.parsed (some "hello")) .fail).status = 200
        ∧ ∃ u, (OldRoute.POST (.parsed (some "hello")) .fail).url = some u
              ∧ u ∈ OldRoute.fallbackModels.map Prod.snd)) :=
  ⟨by decide, claim_C10_theorem "hello" .fail (by decide)⟩


/-- Unfolding of `loadModel` at the default URL: the default URL is valid
and equal to the retry target, so one attempt is made and, on failure or
timeout, no further retry happens. -/
theorem loadModel_default_eq (w : String → ARScene.LoadOutcome) (s : ARScene.LoadSt) :
    ARScene.loadModel w defaultModelUrl s
      = match w defaultModelUrl with
        | .success =>
          { template := some defaultModelUrl, loaded := true, progress := 100
          , error := none, attempts := s.attempts ++ [defaultModelUrl] }
        | .timeout =>
          { template := none, loaded := false, progress := 0
          , error := some "Model loading timed out. Please try again."
          , attempts := s.attempts ++ [defaultModelUrl] }
        | .failure =>
          { template := none, loaded := false, progress := 0
          , error := some "Failed to load 3D model"
          , attempts := s.attempts ++ [defaultModelUrl] } := by
  rw [ARScene.loadModel]
  rw [dif_neg (by decide : ¬(defaultModelUrl = "" ∨ defaultModelUrl = "undefined"))]
  cases hd : w defaultModelUrl with
  | success => rfl
  | timeout =>
    rw [dif_pos rfl]
  | failure =>
    rw [dif_pos rfl]
    rfl

/-- Unfolding of `loadModel` at a valid non-default URL whose load fails or
times out: the error string is set and the load is retried with the default
URL. -/
theorem loadModel_retry_eq (w : String → ARScene.LoadOutcome) (url : String)
    (s : ARScene.LoadSt) (h1 : url ≠ "") (h2 : url ≠ "undefined")
    (h3 : url ≠ defaultModelUrl) (hf : w url = .failure ∨ w url = .timeout) :
    ARScene.loadModel w url s
      = ARScene.loadModel w defaultModelUrl
          { template := none, loaded := false, progress := 0
          , error := some (match w url with
              | .timeout => "Model loading timed out. Please try again."
              | _ => "Failed to load 3D model")
          , attempts := s.attempts ++ [url] } := by
  rw [ARScene.loadModel]
  rw [dif_neg (not_or.mpr ⟨h1, h2⟩)]
  rcases hf with hf | hf <;> simp only [hf] <;> rw [dif_neg h3]
/-- Claim C4: for every `loadModel(url)` call on a valid non-default URL
whose single load outcome is failure or timeout, the session retries exactly
once with the default URL (the attempt trace is `[url, defaultModelUrl]`);
when the default load succeeds the default template is installed with no
error; when the default load also fails, a load error is surfaced and no
template is installed. The second conjunct covers calling `loadModel`
directly on the default URL: a failure there is terminal, with one attempt,
an error, and no template. -/
theorem claim_C4_theorem :
    (∀ (w : String → ARScene.LoadOutcome) (url : String) (s : ARScene.LoadSt),
      url ≠ "" → url ≠ "undefined" → url ≠ defaultModelUrl →
      (w url = .failure ∨ w url = .timeout) →
      ((ARScene.loadModel w url s).attempts = s.attempts ++ [url, defaultModelUrl])
      ∧ (w defaultModelUrl = .success →
          (ARScene.loadModel w url s).template = some defaultModelUrl
          ∧ (ARScene.loadModel w url s).error = none
          ∧ (ARScene.loadModel w url s).loaded = true)
      ∧ (w defaultModelUrl ≠ .success →
          (ARScene.loadModel w url s).template = none
          ∧ (ARScene.loadModel w url s).error ≠ none))
    ∧ (∀ (w : String → ARScene.LoadOutcome) (s : ARScene.LoadSt),
        (w defaultModelUrl = .failure ∨ w defaultModelUrl = .timeout) →
        (ARScene.loadModel w defaultModelUrl s).template = none
        ∧ (ARScene.loadModel w defaultModelUrl s).error ≠ none
        ∧ (ARScene.loadModel w defaultModelUrl s).attempts
            = s.attempts ++ [defaultModelUrl]) := by
  constructor
  · intro w url s h1 h2 h3 hf
    rw [loadModel_retry_eq w url s h1 h2 h3 hf, loadModel_default_eq]
    cases hd : w defaultModelUrl with
    | success =>
      exact ⟨by simp, fun _ => ⟨rfl, rfl, rfl⟩, fun hns => absurd rfl hns⟩
    | timeout =>
      exact ⟨by simp, fun hs => absurd hs (by simp), fun _ => ⟨rfl, by simp⟩⟩
    | failure =>
      exact ⟨by simp, fun hs => absurd hs (by simp), fun _ => ⟨rfl, by simp⟩⟩
  · intro w s hf
    rw [loadModel_default_eq]
    rcases hf with hf | hf <;> simp only [hf] <;> refine ⟨?_, ?_, ?_⟩ <;> simp

/-- Claim C4, witness: a world where only the default URL loads makes the
bad-URL call end with the default template installed; a world where every
load fails leaves no template. -/
theorem claim_C4_witness :
    (ARScene.loadModel
        (fun u => if u = defaultModelUrl then ARScene.LoadOutcome.success
                  else ARScene.LoadOutcome.timeout)
        "https://bad.example/model.gltf"
        ⟨none, false, 0, none, []⟩).template = some defaultModelUrl
    ∧ (ARScene.loadModel (fun _ => ARScene.LoadOutcome.failure)
        "https://bad.example/model.gltf"
        ⟨none, false, 0, none, []⟩).template = none := by
  constructor
  · exact ((claim_C4_theorem.1 _ "https://bad.example/model.gltf" _
      (by decide) (by decide) (by decide) (Or.inr (by decide))).2.1 (by decide)).1
  · exact ((claim_C4_theorem.1 _ "https://bad.example/model.gltf" _
      (by decide) (by decide) (by decide) (Or.inl rfl)).2.2 (by decide)).1

/-- Claim C2, counterexample. The claim states that callbacks of a
superseded load are ignored (a generation check), so a slow stale load never
replaces the template installed by a newer load. In the source the success
callback installs its model unconditionally: after load A is superseded by
load B and B has completed, the late success of A still overwrites the
template, leaving the stale asset A installed. -/
theorem claim_C2_counterexample :
    (LoadRace.runLoad ⟨[], none⟩
      [.start "https://example.com/a.gltf", .start "https://example.com/b.gltf",
       .succeed 1, .succeed 0]).template = some "https://example.com/a.gltf"
    ∧ ("https://example.com/a.gltf" : String) ≠ "https://example.com/b.gltf" :=
  ⟨rfl, by decide⟩

/-- Claim C2 as amended: the source has no generation token, and several
loads can be in flight at once; a new `loadModel` call removes the installed
template and starts a fresh attempt, but late callbacks of a superseded load
run unguarded. After `start a, start b, succeed b` the template is the newer
`b`; a subsequent late `succeed a` replaces it with the stale `a`. -/
theorem claim_C2_theorem :
    ∀ a b : String,
      (LoadRace.runLoad ⟨[], none⟩
        [.start a, .start b, .succeed 1]).template = some b
      ∧ (LoadRace.runLoad ⟨[], none⟩
        [.start a, .start b, .succeed 1, .succeed 0]).template = some a := by
  intro a b
  exact ⟨rfl, rfl⟩

/-- Claim C5, counterexample. The claim states that on a frame with no
hit-test result the reticle is set invisible. The first `render` version has
no such branch: after a frame with a result (reticle visible) and then a
frame with no result, the reticle is still visible. The second version
matches the claim and hides it. -/
theorem claim_C5_counterexample :
    (ARScene.renderReticleV1
        (ARScene.renderReticleV1 ⟨false, ⟨(0, 0, 0), (0, 0, 0)⟩⟩
          [some ⟨(1, 0, 0), (2, 3, 4)⟩])
        []).visible = true
    ∧ (ARScene.renderReticleV2
        (ARScene.renderReticleV2 ⟨false, ⟨(0, 0, 0), (0, 0, 0)⟩⟩
          [some ⟨(1, 0, 0), (2, 3, 4)⟩])
        []).visible = false :=
  ⟨rfl, rfl⟩

/-- Claim C5 as amended: on every tracked frame whose first hit-test
result has an available pose, both render versions set the reticle visible
and overwrite its pose matrix verbatim with that pose. On a frame with no
result, the first version leaves the reticle untouched (it is never hidden),
while the second version sets it invisible, keeping its matrix. On a frame
whose first result has no pose, both versions leave the reticle
untouched. -/
theorem claim_C5_theorem :
    (∀ (ret : ARScene.Reticle) (m : ARScene.Mat4) (rest : List (Option ARScene.Mat4)),
      ARScene.renderReticleV1 ret (some m :: rest) = ⟨true, m⟩
      ∧ ARScene.renderReticleV2 ret (some m :: rest) = ⟨true, m⟩)
    ∧ (∀ ret : ARScene.Reticle, ARScene.renderReticleV1 ret [] = ret)
    ∧ (∀ ret : ARScene.Reticle,
        ARScene.renderReticleV2 ret [] = { ret with visible := false })
    ∧ (∀ (ret : ARScene.Reticle) (rest : List (Option ARScene.Mat4)),
        ARScene.renderReticleV1 ret (none :: rest) = ret
        ∧ ARScene.renderReticleV2 ret (none :: rest) = ret) :=
  ⟨fun ret m rest => ⟨rfl, rfl⟩, fun ret => rfl, fun ret => rfl,
   fun ret rest => ⟨rfl, rfl⟩⟩

/-- A concrete scene state for witnesses and counterexamples: one template
object at id 0 with rotation (1, 0, 0), and a visible reticle whose matrix
has rotation component (0, 7, 0) and translation (5, 5, 5). -/
def sampleState : ARScene.ARState :=
  { heap := fun _ =>
      { position := (0, 0, 0), rotation := (1, 0, 0), scale := (1, 1, 1), visible := false }
  , nextId := 1
  , template := some 0
  , reticle := { visible := true, matrix := { rot := (0, 7, 0), pos := (5, 5, 5) } }
  , placed := [] }

/-- Claim C9: calling the select handler while the reticle is invisible or
while no template asset is loaded returns the state unchanged - no placed
instance is added, the heap and placed list are untouched, and no error is
raised (the handler is total). -/
theorem claim_C9_theorem (s : ARScene.ARState)
    (h : s.reticle.visible = false ∨ s.template = none) :
    ARScene.onSelect s = s := by
  unfold ARScene.onSelect
  rcases h with h | h
  · rw [h]
    simp
  · rw [h]
    split <;> rfl

/-- Claim C9, witness: on the sample state with the reticle made
invisible, the select handler is the identity. -/
theorem claim_C9_witness :
    ({ sampleState with
        reticle := { visible := false, matrix := sampleState.reticle.matrix } }
      : ARScene.ARState).reticle.visible = false
    ∧ ARScene.onSelect
        { sampleState with
          reticle := { visible := false, matrix := sampleState.reticle.matrix } }
      = { sampleState with
          reticle := { visible := false, matrix := sampleState.reticle.matrix } } :=
  ⟨rfl, claim_C9_theorem _ (Or.inl rfl)⟩

/-- Claim C6, counterexample. The claim states the duplicate gets the
reticle pose. The handler copies only the translation component of the
reticle matrix (`position.setFromMatrixPosition`): the placed clone keeps
the rotation of the template, (1, 0, 0), which differs from the rotation
component (0, 7, 0) of the reticle matrix, so the pose of the duplicate is
not the reticle pose. -/
theorem claim_C6_counterexample :
    ((ARScene.onSelect sampleState).heap 1).position = sampleState.reticle.matrix.pos
    ∧ ((ARScene.onSelect sampleState).heap 1).rotation = (1, 0, 0)
    ∧ sampleState.reticle.matrix.rot = (0, 7, 0)
    ∧ ((ARScene.onSelect sampleState).heap 1).rotation ≠ sampleState.reticle.matrix.rot := by
  refine ⟨rfl, rfl, rfl, by decide⟩

/-- Claim C6 as amended: with a visible reticle and a loaded template,
three select calls append exactly three placed instances, in placement
order, each a fresh independent object whose position is the translation
component of the reticle matrix, whose visibility is true, and whose
remaining transform (rotation, scale) is inherited from the template; the
template object itself is untouched. Mutating the position of the middle
placed instance afterwards changes neither the other two placed instances
nor the template, and does set that instance. -/
theorem claim_C6_theorem (s : ARScene.ARState) (t : Nat) (q : Int × Int × Int)
    (hvis : s.reticle.visible = true) (ht : s.template = some t)
    (htlt : t < s.nextId) (hpl : s.placed = []) :
    ((ARScene.onSelect (ARScene.onSelect (ARScene.onSelect s))).placed
        = [s.nextId, s.nextId + 1, s.nextId + 2])
    ∧ ((ARScene.onSelect (ARScene.onSelect (ARScene.onSelect s))).template = some t)
    ∧ ((ARScene.onSelect (ARScene.onSelect (ARScene.onSelect s))).heap s.nextId
        = { s.heap t with position := s.reticle.matrix.pos, visible := true })
    ∧ ((ARScene.onSelect (ARScene.onSelect (ARScene.onSelect s))).heap (s.nextId + 1)
        = { s.heap t with position := s.reticle.matrix.pos, visible := true })
    ∧ ((ARScene.onSelect (ARScene.onSelect (ARScene.onSelect s))).heap (s.nextId + 2)
        = { s.heap t with position := s.reticle.matrix.pos, visible := true })
    ∧ ((ARScene.onSelect (ARScene.onSelect (ARScene.onSelect s))).heap t = s.heap t)
    ∧ ((ARScene.setPose (ARScene.onSelect (ARScene.onSelect (ARScene.onSelect s)))
          (s.nextId + 1) q).heap s.nextId
        = (ARScene.onSelect (ARScene.onSelect (ARScene.onSelect s))).heap s.nextId)
    ∧ ((ARScene.setPose (ARScene.onSelect (ARScene.onSelect (ARScene.onSelect s)))
          (s.nextId + 1) q).heap (s.nextId + 2)
        = (ARScene.onSelect (ARScene.onSelect (ARScene.onSelect s))).heap (s.nextId + 2))
    ∧ ((ARScene.setPose (ARScene.onSelect (ARScene.onSelect (ARScene.onSelect s)))
          (s.nextId + 1) q).heap t
        = (ARScene.onSelect (ARScene.onSelect (ARScene.onSelect s))).heap t)
    ∧ (((ARScene.setPose (ARScene.onSelect (ARScene.onSelect (ARScene.onSelect s)))
          (s.nextId + 1) q).heap (s.nextId + 1)).position = q) := by
  have hne0 : ¬ (t = s.nextId) := by omega
  have hne1 : ¬ (t = s.nextId + 1) := by omega
  have hne2 : ¬ (t = s.nextId + 2) := by omega
  have hd01 : ¬ (s.nextId = s.nextId + 1) := by omega
  have hd02 : ¬ (s.nextId = s.nextId + 2) := by omega
  have hd12 : ¬ (s.nextId + 1 = s.nextId + 2) := by omega
  have hd21 : ¬ (s.nextId + 2 = s.nextId + 1) := by omega
  simp only [ARScene.onSelect, ARScene.setPose, ARScene.setFromMatrixPosition,
    ARScene.writeObj, hvis, ht, if_true, hpl]
  simp only [hne0, hne1, hne2, hd01, hd02, hd12, hd21, if_false, if_true,
    List.nil_append, List.append_assoc, List.singleton_append, List.cons_append]
  refine ⟨?_, ?_, ?_, ?_, ?_, ?_, ?_, ?_, ?_, ?_⟩ <;> simp [hne0, hne1, hne2]

/-- Claim C6, witness: on the sample state (template at id 0, next fresh id
1), three select calls produce the placed instances 1, 2 and 3, and mutating
the position of instance 2 afterwards leaves instance 1 unchanged while
setting the position of instance 2. -/
theorem claim_C6_witness :
    (ARScene.onSelect (ARScene.onSelect (ARScene.onSelect sampleState))).placed = [1, 2, 3]
    ∧ (ARScene.setPose
        (ARScene.onSelect (ARScene.onSelect (ARScene.onSelect sampleState)))
        2 (9, 9, 9)).heap 1
      = (ARScene.onSelect (ARScene.onSelect (ARScene.onSelect sampleState))).heap 1
    ∧ ((ARScene.setPose
        (ARScene.onSelect (ARScene.onSelect (ARScene.onSelect sampleState)))
        2 (9, 9, 9)).heap 2).position = (9, 9, 9) := by
  have h := claim_C6_theorem sampleState 0 (9, 9, 9) rfl rfl (by decide) rfl
  exact ⟨h.1, h.2.2.2.2.2.2.1, h.2.2.2.2.2.2.2.2.2⟩

end ImAgInE
